import Mathlib

/-!
Shallow embedding of the DmentorAI core: the regex-based `CodeAnalyzer`
(src/analysis/codeAnalyzer.ts), the `LearningSystem` feedback/suppression
engine (src/learning/learningSystem.ts) and the `DMentorCore` orchestrator
(src/core/dmentorCore.ts).

Modelling conventions:
* JavaScript strings are `List Char` (the sources are ASCII, so UTF-16
  `substring`/`length` coincide with character counts).
* Each JS regular expression used by the analyzer is hand-compiled to a
  decidable matcher over `List Char`.  Every regex involved consists of
  literal runs, `\s*`/`\s+`/`\w+` repetitions and character classes whose
  follow-sets are disjoint from the repeated class, so the greedy
  non-backtracking scan implemented here is exactly equivalent to the JS
  `RegExp.test` semantics.
* `Date.now()` timestamps are explicit `Int` parameters; `setTimeout`
  becomes the recording of a `(uri, fireTime)` entry.
* The floating-point sensitivity arithmetic (`1.0`, `0.1`, `0.05`, `0.3`,
  `0.5`) is embedded in exact rationals `ℚ`.
* Mutable class fields become explicit state records threaded through the
  operations; `vscode` persistence and message popups are side effects with
  no bearing on the modelled values and are dropped.
-/

namespace DMentor

/-- JavaScript `\s` (whitespace) character class, restricted to the ASCII
whitespace characters that can occur in the analysed lines. -/
def isSpaceChar (c : Char) : Bool :=
  c == ' ' || c == '\t' || c == '\n' || c == '\r' || c == '\x0b' || c == '\x0c'

/-- JavaScript `\w` word-character class: `[A-Za-z0-9_]`. -/
def isWordChar (c : Char) : Bool :=
  c.isAlpha || c.isDigit || c == '_'

/-- Head of the list is exactly `c`. -/
def headIs (c : Char) : List Char → Bool
  | x :: _ => x == c
  | [] => false

/-- Head of the list satisfies `p`. -/
def headSat (p : Char → Bool) : List Char → Bool
  | x :: _ => p x
  | [] => false

/-- Boolean "the first list is a leading segment of the second". -/
def startsWithL : List Char → List Char → Bool
  | [], _ => true
  | _ :: _, [] => false
  | a :: as, b :: bs => a == b && startsWithL as bs

/-- JavaScript `String.prototype.includes`: `sub` occurs contiguously in the
second list. -/
def containsL (sub : List Char) : List Char → Bool
  | [] => startsWithL sub []
  | c :: cs => startsWithL sub (c :: cs) || containsL sub cs

/-- Run an anchored matcher at every position of the list (unanchored JS
`RegExp.test`). -/
def searchL (m : List Char → Bool) : List Char → Bool
  | [] => m []
  | c :: cs => m (c :: cs) || searchL m cs

/-- JavaScript `String.prototype.split('\n')`. -/
def splitLines : List Char → List (List Char)
  | [] => [[]]
  | c :: rest =>
    if c == '\n' then [] :: splitLines rest
    else
      match splitLines rest with
      | [] => [[c]]
      | l :: ls => (c :: l) :: ls

/-- JavaScript `String.prototype.trim`. -/
def trimL (l : List Char) : List Char :=
  ((l.dropWhile isSpaceChar).reverse.dropWhile isSpaceChar).reverse

/-- First-match lookup in an association list (a `Map`/object read). -/
def lookupA {κ β : Type} [DecidableEq κ] : List (κ × β) → κ → Option β
  | [], _ => none
  | p :: ps, k => if p.1 = k then some p.2 else lookupA ps k

/-- Replace the first binding of `k` (or append one): `Map.set` / object
index assignment. -/
def setA {κ β : Type} [DecidableEq κ] : List (κ × β) → κ → β → List (κ × β)
  | [], k, v => [(k, v)]
  | p :: ps, k, v => if p.1 = k then (k, v) :: ps else p :: setA ps k v

/-! ## CodeAnalyzer data model (src/analysis/codeAnalyzer.ts) -/

/-- The closed `CodeIssue.type` enumeration. -/
inductive IssueType
  | bug | security | performance | style | accessibility | codeSmell
deriving DecidableEq, Repr

/-- The string tag each `IssueType` carries in the TypeScript source. -/
def issueTypeStr : IssueType → List Char
  | .bug => "bug".toList
  | .security => "security".toList
  | .performance => "performance".toList
  | .style => "style".toList
  | .accessibility => "accessibility".toList
  | .codeSmell => "code-smell".toList

/-- The closed `CodeIssue.severity` enumeration. -/
inductive Severity
  | critical | warning | info
deriving DecidableEq, Repr

/-- One detected finding (interface `CodeIssue`); the optional `column`
field is never written by the analyzer and is omitted. -/
structure CodeIssue where
  type : IssueType
  severity : Severity
  line : Nat
  message : List Char
  code : List Char
  suggestion : Option (List Char)
  filePath : List Char
deriving DecidableEq, Repr

/-! ## Hand-compiled regex matchers -/

/-- Anchored matcher for `for\s*\(`. -/
def matchForOpenAt : List Char → Bool
  | 'f' :: 'o' :: 'r' :: rest => headIs '(' (rest.dropWhile isSpaceChar)
  | _ => false

/-- `line.trim().match(/for\s*\(/)` as used by the nested-loop logic. -/
def forLineHit (l : List Char) : Bool :=
  searchL matchForOpenAt (trimL l)

/-- Anchored matcher for `\.\w+\s*[;)}]` (potential null access). -/
def matchDotAccessAt : List Char → Bool
  | '.' :: c :: rest =>
    isWordChar c &&
      (headSat (fun d => d == ';' || d == ')' || d == Char.ofNat 125)
        (((c :: rest).dropWhile isWordChar).dropWhile isSpaceChar))
  | _ => false

/-- Anchored matcher for `\+\s*\w+` (the tail of the first SQL-injection
alternative, after the `.*`). -/
def matchPlusWordAt : List Char → Bool
  | '+' :: rest => headSat isWordChar (rest.dropWhile isSpaceChar)
  | _ => false

/-- Anchored matcher for the (already lower-cased) SQL-injection pattern
`query\s*=\s*["'`].*\+\s*\w+|query\s*=\s*\w+\s*\+`. -/
def matchQueryAt : List Char → Bool
  | 'q' :: 'u' :: 'e' :: 'r' :: 'y' :: rest =>
    (match rest.dropWhile isSpaceChar with
     | '=' :: r2 =>
       (match r2.dropWhile isSpaceChar with
        | q :: r4 =>
          ((q == Char.ofNat 34 || q == Char.ofNat 39 || q == Char.ofNat 96)
              && searchL matchPlusWordAt r4)
            || (isWordChar q
              && headIs '+' (((q :: r4).dropWhile isWordChar).dropWhile isSpaceChar))
        | [] => false)
     | _ => false)
  | _ => false

/-- `line.match(/query\s*=\s*["'`].*\+\s*\w+|query\s*=\s*\w+\s*\+/i)`. -/
def sqlHit (line : List Char) : Bool :=
  searchL matchQueryAt (line.map Char.toLower)

/-- Anchored matcher for `innerHTML\s*=` (lower-cased input). -/
def matchInnerHtmlAt : List Char → Bool
  | 'i' :: 'n' :: 'n' :: 'e' :: 'r' :: 'h' :: 't' :: 'm' :: 'l' :: rest =>
    headIs '=' (rest.dropWhile isSpaceChar)
  | _ => false

/-- `line.match(/innerHTML\s*=|document\.write|eval\(/i)`. -/
def xssHit (line : List Char) : Bool :=
  let low := line.map Char.toLower
  searchL matchInnerHtmlAt low
    || containsL "document.write".toList low
    || containsL "eval(".toList low

/-- Anchored matcher for `console\.(log|debug|warn)`. -/
def matchConsoleAt : List Char → Bool
  | 'c' :: 'o' :: 'n' :: 's' :: 'o' :: 'l' :: 'e' :: '.' :: rest =>
    startsWithL "log".toList rest
      || startsWithL "debug".toList rest
      || startsWithL "warn".toList rest
  | _ => false

/-- `line.match(/console\.(log|debug|warn)/)`. -/
def consoleHit (line : List Char) : Bool :=
  searchL matchConsoleAt line

/-- `line.match(/\.then\(|\.catch\(/)`. -/
def thenCatchHit (line : List Char) : Bool :=
  containsL ".then(".toList line || containsL ".catch(".toList line

/-- Anchored matcher for `%\s*\w+` (tail of the Python SQL rule). -/
def matchPercentWordAt : List Char → Bool
  | '%' :: rest => headSat isWordChar (rest.dropWhile isSpaceChar)
  | _ => false

/-- Anchored matcher for `cursor\.execute\s*\(\s*["'f].*%\s*\w+`. -/
def matchExecAt : List Char → Bool
  | 'c' :: 'u' :: 'r' :: 's' :: 'o' :: 'r' :: '.' :: 'e' :: 'x' :: 'e' :: 'c' :: 'u' :: 't' :: 'e' :: rest =>
    (match rest.dropWhile isSpaceChar with
     | '(' :: r2 =>
       (match r2.dropWhile isSpaceChar with
        | q :: r4 =>
          (q == Char.ofNat 34 || q == Char.ofNat 39 || q == 'f')
            && searchL matchPercentWordAt r4
        | [] => false)
     | _ => false)
  | _ => false

/-- Anchored matcher for `except\s*:$` (end-anchored). -/
def matchExceptEndAt : List Char → Bool
  | 'e' :: 'x' :: 'c' :: 'e' :: 'p' :: 't' :: rest => rest.dropWhile isSpaceChar == [':']
  | _ => false

/-- `line.trim() === 'except:' || line.trim().match(/except\s*:$/)`. -/
def bareExceptHit (line : List Char) : Bool :=
  trimL line == "except:".toList || searchL matchExceptEndAt (trimL line)

/-- Consume the exact character `c`. -/
def expectChar (c : Char) : List Char → Option (List Char)
  | x :: xs => if x == c then some xs else none
  | [] => none

/-- Consume an exact literal run. -/
def expectStr : List Char → List Char → Option (List Char)
  | [], l => some l
  | c :: cs, l =>
    match expectChar c l with
    | some r => expectStr cs r
    | none => none

/-- Consume one-or-more characters satisfying `p` (greedy `X+`). -/
def expectSome (p : Char → Bool) : List Char → Option (List Char)
  | x :: xs => if p x then some (xs.dropWhile p) else none
  | [] => none

/-- Start-anchored matcher for `^def\s+\w+\s*\([^)]*\)\s*:` (the Python
missing-type-hint regex), as a chain of consumption steps. -/
def matchPyDef (l : List Char) : Bool :=
  (((((expectStr "def".toList l).bind
      (expectSome isSpaceChar)).bind
      (expectSome isWordChar)).bind
      (fun r => expectChar '(' (r.dropWhile isSpaceChar))).bind
      (fun r => expectChar ')' (r.dropWhile (fun c => !(c == ')'))))).bind
      (fun r => expectChar ':' (r.dropWhile isSpaceChar)) |>.isSome

/-- The complete guard of the Python missing-type-hint rule:
`line.match(/^def\s+\w+\s*\([^)]*\)\s*:/) && !line.includes('->') &&
!line.includes(':')`. -/
def pyMissingTypeHintHit (line : List Char) : Bool :=
  matchPyDef line && !(containsL "->".toList line) && !(containsL ":".toList line)

/-- Anchored matcher for `<img[^>]*>` (lower-cased input). -/
def matchImgAt : List Char → Bool
  | '<' :: 'i' :: 'm' :: 'g' :: rest => headIs '>' (rest.dropWhile (fun c => !(c == '>')))
  | _ => false

/-- Anchored matcher for `alt\s*=` (lower-cased input). -/
def matchAltAt : List Char → Bool
  | 'a' :: 'l' :: 't' :: rest => headIs '=' (rest.dropWhile isSpaceChar)
  | _ => false

/-- Anchored matcher for `<button[^>]*>` (lower-cased input). -/
def matchButtonAt : List Char → Bool
  | '<' :: 'b' :: 'u' :: 't' :: 't' :: 'o' :: 'n' :: rest =>
    headIs '>' (rest.dropWhile (fun c => !(c == '>')))
  | _ => false

/-- Anchored matcher for `aria-label\s*=|aria-labelledby\s*=` (lower-cased
input). -/
def matchAriaAt : List Char → Bool
  | 'a' :: 'r' :: 'i' :: 'a' :: '-' :: 'l' :: 'a' :: 'b' :: 'e' :: 'l' :: rest =>
    headIs '=' (rest.dropWhile isSpaceChar)
      || (match rest with
          | 'l' :: 'e' :: 'd' :: 'b' :: 'y' :: r2 => headIs '=' (r2.dropWhile isSpaceChar)
          | _ => false)
  | _ => false

/-- Anchored matcher for `>[^<]+<` (visible inner text). -/
def matchGtTextAt : List Char → Bool
  | '>' :: c :: rest =>
    !(c == '<') && headIs '<' ((c :: rest).dropWhile (fun d => !(d == '<')))
  | _ => false

/-- Anchored matcher for `style\s*=` (lower-cased input). -/
def matchStyleEqAt : List Char → Bool
  | 's' :: 't' :: 'y' :: 'l' :: 'e' :: rest => headIs '=' (rest.dropWhile isSpaceChar)
  | _ => false

/-- `line.match(/TODO|FIXME|HACK|XXX/i)`. -/
def todoHit (line : List Char) : Bool :=
  let low := line.map Char.toLower
  containsL "todo".toList low || containsL "fixme".toList low
    || containsL "hack".toList low || containsL "xxx".toList low

/-- JavaScript `line.trim().replace(/\.(\w+)/, '?.$1')`: insert a `?`
before the first `.` that is followed by a word character. -/
def replaceDotWord : List Char → List Char
  | [] => []
  | '.' :: c :: rest =>
    if isWordChar c then '?' :: '.' :: c :: rest
    else '.' :: replaceDotWord (c :: rest)
  | c :: rest => c :: replaceDotWord rest

/-! ## The analyzer passes -/

/-- `hasNestedLoop`'s scan loop: at most `fuel` (= 20) lines, the brace
depth updated after the loop-open check on each line, exactly as in the
source. -/
def hasNestedLoopGo : List (List Char) → Nat → Int → Bool → Bool
  | _, 0, _, _ => false
  | [], _, _, _ => false
  | l :: rest, Nat.succ fuel, braceCount, foundFor =>
    let hit := forLineHit l
    if hit && foundFor && braceCount == 1 then true
    else
      hasNestedLoopGo rest fuel
        (braceCount + (l.count (Char.ofNat 123) : Int) - (l.count (Char.ofNat 125) : Int))
        (foundFor || hit)

/-- `private hasNestedLoop(code, startLine)`: scan forward up to 20 lines
from `startLine` tracking brace depth; report a second loop-open line at
running depth exactly 1. -/
def hasNestedLoop (code : List Char) (startLine : Nat) : Bool :=
  hasNestedLoopGo ((splitLines code).drop startLine) 20 0 false

/-- The per-line issues of `private analyzeJavaScript`, in source rule
order. -/
def analyzeJSLine (code filePath : List Char) (idx : Nat) (line : List Char) : List CodeIssue :=
  let lineNum := idx + 1
  (if searchL matchDotAccessAt line && !(containsL "?.".toList line)
      && !(containsL "||".toList line) && !(containsL "if".toList line) then
    [{ type := .bug, severity := .warning, line := lineNum,
       message := "Potential null/undefined access without optional chaining or null check".toList,
       code := trimL line,
       suggestion := some ("Consider using optional chaining (?.) or adding a null check: ".toList
         ++ replaceDotWord (trimL line)),
       filePath := filePath }]
  else []) ++
  (if sqlHit line then
    [{ type := .security, severity := .critical, line := lineNum,
       message := "Potential SQL injection vulnerability detected".toList,
       code := trimL line,
       suggestion := some "Use parameterized queries or prepared statements instead of string concatenation".toList,
       filePath := filePath }]
  else []) ++
  (if xssHit line then
    [{ type := .security, severity := .warning, line := lineNum,
       message := "Potential XSS vulnerability - dangerous DOM manipulation detected".toList,
       code := trimL line,
       suggestion := some "Use textContent instead of innerHTML, or sanitize user input".toList,
       filePath := filePath }]
  else []) ++
  (if consoleHit line && !(containsL "test".toList filePath) then
    [{ type := .style, severity := .info, line := lineNum,
       message := "Console.log statement found - consider removing for production".toList,
       code := trimL line,
       suggestion := some "Remove console.log or use a proper logging library".toList,
       filePath := filePath }]
  else []) ++
  (if forLineHit line && hasNestedLoop code idx then
    [{ type := .performance, severity := .warning, line := lineNum,
       message := "Nested loop detected - potential O(n²) complexity".toList,
       code := trimL line,
       suggestion := some "Consider using a Map or Set for O(1) lookups instead of nested loops".toList,
       filePath := filePath }]
  else []) ++
  (if thenCatchHit line && !(containsL "async".toList code) then
    [{ type := .style, severity := .info, line := lineNum,
       message := "Promise chain detected - consider using async/await for better readability".toList,
       code := trimL line,
       suggestion := some "Convert to async/await syntax for better readability and error handling".toList,
       filePath := filePath }]
  else [])

/-- `private analyzeJavaScript(code, filePath)`. -/
def analyzeJavaScript (code filePath : List Char) : List CodeIssue :=
  (splitLines code).enum.flatMap fun p => analyzeJSLine code filePath p.1 p.2

/-- The per-line issues of `private analyzePython`, in source rule order. -/
def analyzePyLine (filePath : List Char) (idx : Nat) (line : List Char) : List CodeIssue :=
  let lineNum := idx + 1
  (if searchL matchExecAt line then
    [{ type := .security, severity := .critical, line := lineNum,
       message := "Potential SQL injection - string formatting in SQL query".toList,
       code := trimL line,
       suggestion := some "Use parameterized queries: cursor.execute(\"SELECT * FROM table WHERE id = ?\", (id,))".toList,
       filePath := filePath }]
  else []) ++
  (if bareExceptHit line then
    [{ type := .bug, severity := .warning, line := lineNum,
       message := "Bare except clause catches all exceptions including system exits".toList,
       code := trimL line,
       suggestion := some "Use specific exception types: except ValueError: or except Exception:".toList,
       filePath := filePath }]
  else []) ++
  (if pyMissingTypeHintHit line then
    [{ type := .style, severity := .info, line := lineNum,
       message := "Function missing type hints".toList,
       code := trimL line,
       suggestion := some "Add type hints for better code documentation and IDE support".toList,
       filePath := filePath }]
  else [])

/-- `private analyzePython(code, filePath)`. -/
def analyzePython (code filePath : List Char) : List CodeIssue :=
  (splitLines code).enum.flatMap fun p => analyzePyLine filePath p.1 p.2

/-- The per-line issues of `private analyzeHTML`, in source rule order. -/
def analyzeHTMLLine (filePath : List Char) (idx : Nat) (line : List Char) : List CodeIssue :=
  let lineNum := idx + 1
  let low := line.map Char.toLower
  (if searchL matchImgAt low && !(searchL matchAltAt low) then
    [{ type := .accessibility, severity := .warning, line := lineNum,
       message := "Image missing alt attribute - accessibility issue".toList,
       code := trimL line,
       suggestion := some "Add alt attribute: <img src=\"...\" alt=\"descriptive text\">".toList,
       filePath := filePath }]
  else []) ++
  (if searchL matchButtonAt low && !(searchL matchAriaAt low) && !(searchL matchGtTextAt line) then
    [{ type := .accessibility, severity := .info, line := lineNum,
       message := "Button may need aria-label for screen readers".toList,
       code := trimL line,
       suggestion := some "Add aria-label if button text is not descriptive enough".toList,
       filePath := filePath }]
  else []) ++
  (if searchL matchStyleEqAt low then
    [{ type := .style, severity := .info, line := lineNum,
       message := "Inline styles detected - consider using CSS classes".toList,
       code := trimL line,
       suggestion := some "Move styles to external stylesheet or style tag for better maintainability".toList,
       filePath := filePath }]
  else [])

/-- `private analyzeHTML(code, filePath)`. -/
def analyzeHTML (code filePath : List Char) : List CodeIssue :=
  (splitLines code).enum.flatMap fun p => analyzeHTMLLine filePath p.1 p.2

/-- The per-line issues of `private analyzeGeneric`, in source rule order. -/
def analyzeGenericLine (filePath : List Char) (idx : Nat) (line : List Char) : List CodeIssue :=
  let lineNum := idx + 1
  (if todoHit line then
    [{ type := .codeSmell, severity := .info, line := lineNum,
       message := "TODO/FIXME comment found".toList,
       code := trimL line,
       suggestion := some "Consider addressing this before merging to production".toList,
       filePath := filePath }]
  else []) ++
  (if 120 < line.length then
    [{ type := .style, severity := .info, line := lineNum,
       message := "Line exceeds 120 characters - consider breaking it up".toList,
       code := (trimL line).take 100 ++ "...".toList,
       suggestion := some "Break long lines for better readability".toList,
       filePath := filePath }]
  else [])

/-- `private analyzeGeneric(code, filePath, languageId)`. -/
def analyzeGeneric (code filePath : List Char) : List CodeIssue :=
  (splitLines code).enum.flatMap fun p => analyzeGenericLine filePath p.1 p.2

/-- The fields of a `vscode.TextDocument` the analyzer reads. -/
structure TextDocument where
  text : List Char
  languageId : List Char
  fileName : List Char
  scheme : List Char
deriving DecidableEq, Repr

/-- The language dispatch `switch (languageId)` of `analyzeDocument`. -/
def dispatchAnalyze (doc : TextDocument) : List CodeIssue :=
  if doc.languageId == "javascript".toList || doc.languageId == "typescript".toList then
    analyzeJavaScript doc.text doc.fileName
  else if doc.languageId == "python".toList then
    analyzePython doc.text doc.fileName
  else if doc.languageId == "html".toList || doc.languageId == "vue".toList
      || doc.languageId == "svelte".toList then
    analyzeHTML doc.text doc.fileName
  else
    analyzeGeneric doc.text doc.fileName

/-- The mutable rate-limiting field of class `CodeAnalyzer` that
`analyzeDocument` actually reads and writes (`lastSuggestionTime`; the
`lastAnalysisTime` per-document map is declared but never used). -/
structure AnalyzerState where
  lastSuggestionTime : Int
deriving DecidableEq, Repr

/-- `CodeAnalyzer.analyzeDocument`: config/scheme gate, the 20-second
rate-limit on the single `lastSuggestionTime` field, then the language
dispatch.  Returns the issues together with the updated analyzer state. -/
def analyzeDocument (proactiveInterruptions : Bool) (st : AnalyzerState) (now : Int)
    (doc : TextDocument) : List CodeIssue × AnalyzerState :=
  if !proactiveInterruptions || !(doc.scheme == "file".toList) then ([], st)
  else if now - st.lastSuggestionTime < 20000 then ([], st)
  else (dispatchAnalyze doc, { lastSuggestionTime := now })

/-- Interface `SuggestionContext` (the fields `convertToSuggestionContext`
fills). -/
structure SuggestionContext where
  filePath : List Char
  lineNumber : Nat
  code : List Char
  issueType : IssueType
  severity : Severity
  description : List Char
  suggestion : Option (List Char)
deriving DecidableEq, Repr

/-- `CodeAnalyzer.convertToSuggestionContext`. -/
def convertToSuggestionContext (issue : CodeIssue) : SuggestionContext :=
  { filePath := issue.filePath
    lineNumber := issue.line
    code := issue.code
    issueType := issue.type
    severity := issue.severity
    description := issue.message
    suggestion := issue.suggestion }

/-! ## LearningSystem (src/learning/learningSystem.ts) -/

/-- The `UserFeedback.action` / argument enumeration
`'accepted' | 'dismissed' | 'modified'`. -/
inductive Action
  | accepted | dismissed | modified
deriving DecidableEq, Repr

/-- The `LearningPattern.userReaction` enumeration. -/
inductive UserReaction
  | preferred | rejected | neutral
deriving DecidableEq, Repr

/-- Interface `UserFeedback` (the `timestamp: Date` field carries no
modelled information and is omitted). -/
structure UserFeedback where
  interventionId : List Char
  action : Action
  feedback : Option (List Char)
  issueType : List Char
  personality : List Char
deriving DecidableEq, Repr

/-- Interface `LearningPattern` (`lastUpdated: Date` omitted, as above). -/
structure LearningPattern where
  pattern : List Char
  issueType : List Char
  userReaction : UserReaction
  count : Nat
deriving DecidableEq, Repr

/-- The parts of an `Intervention` that `recordFeedback` reads: `id`,
`context.issueType`, `context.code` and `response.message`. -/
structure InterventionData where
  id : List Char
  issueType : List Char
  code : List Char
  message : List Char
deriving DecidableEq, Repr

/-- The mutable state of class `LearningSystem`: the feedback history, the
`learningPatterns` map, and the four `AdaptationRules` fields (flattened). -/
structure LearningState where
  feedbackHistory : List UserFeedback
  learningPatterns : List (List Char × LearningPattern)
  skipPatterns : List (List Char)
  preferredPatterns : List (List Char)
  personalityAdjustments : List (List Char × ℚ)
  issueTypeSensitivity : List (List Char × ℚ)
deriving DecidableEq, Repr

/-- The state after construction against an empty persistence surface, and
also the state produced by `resetLearningData`. -/
def initLearningState : LearningState :=
  { feedbackHistory := []
    learningPatterns := []
    skipPatterns := []
    preferredPatterns := []
    personalityAdjustments := []
    issueTypeSensitivity := [] }

/-- `LearningSystem.resetLearningData` (the persistence write and the popup
message are side effects outside the model). -/
def resetLearningData (_st : LearningState) : LearningState :=
  initLearningState

/-- `private extractPattern(intervention)`:
`issueType + ":" + context.code.substring(0, 30)`. -/
def extractPattern (iv : InterventionData) : List Char :=
  iv.issueType ++ ':' :: iv.code.take 30

/-- The derived pattern key `shouldShowIssue` computes for a `CodeIssue`:
`issue.type + ":" + issue.code.substring(0, 30)`. -/
def issuePatternKey (issue : CodeIssue) : List Char :=
  issueTypeStr issue.type ++ ':' :: issue.code.take 30

/-- How `updateLearningPatterns` maps an action to a reaction. -/
def reactionOf : Action → UserReaction
  | .accepted => .preferred
  | .dismissed => .rejected
  | .modified => .neutral

/-- `private updateLearningPatterns`: upsert the pattern aggregate,
incrementing `count` and overwriting `userReaction`. -/
def updateLearningPatterns (st : LearningState) (iv : InterventionData) (a : Action) :
    LearningState :=
  let pattern := extractPattern iv
  let existing := (lookupA st.learningPatterns pattern).getD
    { pattern := pattern, issueType := iv.issueType, userReaction := .neutral, count := 0 }
  let updated := { existing with count := existing.count + 1, userReaction := reactionOf a }
  { st with learningPatterns := setA st.learningPatterns pattern updated }

/-- `private updateAdaptationRules`: on a dismissal, push the pattern into
`skipPatterns` once its count reaches 3; on an acceptance, push it into
`preferredPatterns`; then adjust `issueTypeSensitivity` for the issue type
(the JS falsy test `!sensitivity[issueType]` initialises the entry to `1.0`
when it is absent, which over `ℚ` is the `= 0` test on the defaulted
lookup). -/
def updateAdaptationRules (st : LearningState) (iv : InterventionData) (a : Action) :
    LearningState :=
  let pattern := extractPattern iv
  let issueType := iv.issueType
  let st1 :=
    match a with
    | .dismissed =>
      let patternCount := ((lookupA st.learningPatterns pattern).map LearningPattern.count).getD 0
      if 3 ≤ patternCount ∧ pattern ∉ st.skipPatterns then
        { st with skipPatterns := st.skipPatterns ++ [pattern] }
      else st
    | .accepted =>
      if pattern ∉ st.preferredPatterns then
        { st with preferredPatterns := st.preferredPatterns ++ [pattern] }
      else st
    | .modified => st
  let v0 : ℚ := ((lookupA st1.issueTypeSensitivity issueType).getD 0)
  let v1 : ℚ := if v0 = 0 then 1 else v0
  match a with
  | .dismissed =>
    let v2 := max (3/10 : ℚ) (v1 - 1/10)
    { st1 with issueTypeSensitivity := setA st1.issueTypeSensitivity issueType v2 }
  | .accepted =>
    let v2 := min (1 : ℚ) (v1 + 1/20)
    { st1 with issueTypeSensitivity := setA st1.issueTypeSensitivity issueType v2 }
  | .modified =>
    { st1 with issueTypeSensitivity := setA st1.issueTypeSensitivity issueType v1 }

/-- The `UserFeedback` record `recordFeedback` builds (its `personality`
field is the first 50 characters of the response message). -/
def mkUserFeedback (iv : InterventionData) (a : Action) (fb : Option (List Char)) :
    UserFeedback :=
  { interventionId := iv.id, action := a, feedback := fb,
    issueType := iv.issueType, personality := iv.message.take 50 }

/-- `LearningSystem.recordFeedback`: append the feedback record, update the
pattern aggregates, update the adaptation rules, then trim the history to
its last 1000 entries. -/
def recordFeedback (st : LearningState) (iv : InterventionData) (a : Action)
    (fb : Option (List Char)) : LearningState :=
  let st1 := { st with feedbackHistory := st.feedbackHistory ++ [mkUserFeedback iv a fb] }
  let st2 := updateLearningPatterns st1 iv a
  let st3 := updateAdaptationRules st2 iv a
  if 1000 < st3.feedbackHistory.length then
    { st3 with feedbackHistory := st3.feedbackHistory.drop (st3.feedbackHistory.length - 1000) }
  else st3

/-- The stored occurrence count of a pattern key (`get(pattern)?.count ||
0`). -/
def patternCount (st : LearningState) (K : List Char) : Nat :=
  ((lookupA st.learningPatterns K).map LearningPattern.count).getD 0

/-- The invariant claimed of `issueTypeSensitivity`: every stored value
lies in `[0.3, 1.0]`. -/
def sensInv (st : LearningState) : Prop :=
  ∀ K s, lookupA st.issueTypeSensitivity K = some s → 3/10 ≤ s ∧ s ≤ 1

/-- One call to `recordFeedback`, as an event. -/
structure FeedbackEvent where
  iv : InterventionData
  action : Action
  feedback : Option (List Char)
deriving DecidableEq, Repr

/-- Fold a sequence of `recordFeedback` calls over the learning state. -/
def runFeedback : LearningState → List FeedbackEvent → LearningState
  | st, [] => st
  | st, e :: es => runFeedback (recordFeedback st e.iv e.action e.feedback) es

/-- `LearningSystem.shouldShowIssue`: suppressed-pattern check first, then
the sensitivity threshold (criticals pass the sensitivity check). -/
def shouldShowIssue (st : LearningState) (issue : CodeIssue) : Bool :=
  let pattern := issuePatternKey issue
  if pattern ∈ st.skipPatterns then false
  else
    let s0 : ℚ := ((lookupA st.issueTypeSensitivity (issueTypeStr issue.type)).getD 0)
    let sensitivity : ℚ := if s0 = 0 then 1 else s0
    if sensitivity < (1/2 : ℚ) ∧ issue.severity ≠ .critical then false else true

/-- The record returned by `LearningSystem.getLearningStats`. -/
structure LearningStats where
  totalFeedback : Nat
  accepted : Nat
  dismissed : Nat
  modified : Nat
deriving DecidableEq, Repr

/-- `LearningSystem.getLearningStats`. -/
def getLearningStats (st : LearningState) : LearningStats :=
  { totalFeedback := st.feedbackHistory.length
    accepted := (st.feedbackHistory.filter (fun f => f.action = .accepted)).length
    dismissed := (st.feedbackHistory.filter (fun f => f.action = .dismissed)).length
    modified := (st.feedbackHistory.filter (fun f => f.action = .modified)).length }

/-! ## DMentorCore orchestrator (src/core/dmentorCore.ts) -/

/-- The flag fields of an `Intervention` that `acceptIntervention` /
`dismissIntervention` touch (the optional booleans start unset, i.e.
falsy). -/
structure InterventionRec where
  id : List Char
  dismissed : Bool
  accepted : Bool
deriving DecidableEq, Repr

/-- The core state the accept/dismiss actions read and write: the live
intervention list plus the stream of records forwarded to
`LearningSystem.recordFeedback`. -/
structure CoreState where
  interventions : List InterventionRec
  feedbackLog : List (List Char × Action)
deriving DecidableEq, Repr

/-- Apply `f` to the first element satisfying `p` (the in-place mutation of
the object returned by `Array.prototype.find`). -/
def setFirst {α : Type} (p : α → Bool) (f : α → α) : List α → List α
  | [] => []
  | x :: xs => if p x then f x :: xs else x :: setFirst p f xs

/-- `DMentorCore.dismissIntervention(id)`: find the intervention by id; if
present, set `dismissed = true` and forward a `'dismissed'` record to the
learning system.  There is no already-resolved guard in the source. -/
def dismissIntervention (st : CoreState) (id : List Char) : CoreState :=
  if st.interventions.any (fun i => i.id == id) then
    { interventions := setFirst (fun i => i.id == id) (fun i => { i with dismissed := true })
        st.interventions
      feedbackLog := st.feedbackLog ++ [(id, Action.dismissed)] }
  else st

/-- `DMentorCore.acceptIntervention(id)`: find the intervention by id; if
present, set `accepted = true` and forward an `'accepted'` record.  There
is no already-resolved guard in the source. -/
def acceptIntervention (st : CoreState) (id : List Char) : CoreState :=
  if st.interventions.any (fun i => i.id == id) then
    { interventions := setFirst (fun i => i.id == id) (fun i => { i with accepted := true })
        st.interventions
      feedbackLog := st.feedbackLog ++ [(id, Action.accepted)] }
  else st

/-- The state `onDocumentChange` touches: the per-document
`lastDocumentChange` map and the `setTimeout` calls it issues, recorded as
`(uri, fireTime)` pairs.  The source never cancels or reschedules a timer. -/
structure DebounceState where
  lastDocumentChange : List (List Char × Int)
  scheduled : List (List Char × Int)
deriving DecidableEq, Repr

/-- `private onDocumentChange(e)` with `debounceDelay = 1000`: bail out
when inactive, in focus mode, or proactive interruptions are off; drop the
event when it is within 1000 ms of the last *tracked* change for the same
document; otherwise track it and schedule an analysis 1000 ms later. -/
def onDocumentChange (isActive focusMode proactiveInterruptions : Bool)
    (st : DebounceState) (uri : List Char) (now : Int) : DebounceState :=
  if !isActive || focusMode then st
  else if !proactiveInterruptions then st
  else
    let lastChange := (lookupA st.lastDocumentChange uri).getD 0
    if now - lastChange < 1000 then st
    else
      { lastDocumentChange := setA st.lastDocumentChange uri now
        scheduled := st.scheduled ++ [(uri, now + 1000)] }

/-- Fold a sequence of change events for one document over the debounce
state. -/
def runChanges (isActive focusMode proactiveInterruptions : Bool) (uri : List Char) :
    DebounceState → List Int → DebounceState
  | st, [] => st
  | st, t :: ts =>
    runChanges isActive focusMode proactiveInterruptions uri
      (onDocumentChange isActive focusMode proactiveInterruptions st uri t) ts

/-- The frequency policy of `DMentorCore.analyzeDocument`: `'minimal'`
keeps only criticals, `'balanced'` drops info-severity issues except
security ones, anything else keeps all. -/
def freqKeep (frequency : List Char) (i : CodeIssue) : Bool :=
  if frequency == "minimal".toList then i.severity == .critical
  else if frequency == "balanced".toList then !(i.severity == .info) || i.type == .security
  else true

/-- The filtering pipeline of `DMentorCore.analyzeDocument` applied to the
analyzer's issue list: early return on an empty list, the learning-system
`shouldShowIssue` filter, the frequency policy, then the
`maxSuggestionsPerMinute` truncation.  The result is the list of issues
that become interventions. -/
def analyzeDocumentFilter (st : LearningState) (frequency : List Char)
    (maxSuggestions : Nat) (issues : List CodeIssue) : List CodeIssue :=
  if issues.isEmpty then []
  else
    (((issues.filter (fun i => shouldShowIssue st i)).filter (freqKeep frequency)).take
      maxSuggestions)

/-- The issue-to-intervention mapping of `DMentorCore.requestReview`: every
issue returned by `codeAnalyzer.analyzeDocument` is turned into an
intervention via `convertToSuggestionContext`; no learning-system filter,
no frequency policy and no truncation appear in the source. -/
def requestReviewContexts (issues : List CodeIssue) : List SuggestionContext :=
  issues.map convertToSuggestionContext

/-! ## Generic helper lemmas -/

theorem expectChar_suffix {c : Char} {l r : List Char} (h : expectChar c l = some r) :
    r <:+ l ∧ c ∈ l := by
  cases l with
  | nil => simp [expectChar] at h
  | cons x xs =>
    simp only [expectChar] at h
    split at h
    · rename_i hxc
      rw [beq_iff_eq] at hxc
      rw [Option.some.injEq] at h
      refine ⟨h ▸ List.suffix_cons x xs, ?_⟩
      exact hxc ▸ List.mem_cons_self x xs
    · cases h

theorem expectStr_suffix : ∀ {s l r : List Char}, expectStr s l = some r → r <:+ l
  | [], l, r, h => by
    simp only [expectStr, Option.some.injEq] at h
    exact h ▸ List.suffix_refl l
  | c :: cs, l, r, h => by
    simp only [expectStr] at h
    cases hec : expectChar c l with
    | none => rw [hec] at h; cases h
    | some m =>
      rw [hec] at h
      exact (expectStr_suffix h).trans (expectChar_suffix hec).1

theorem expectSome_suffix {p : Char → Bool} {l r : List Char}
    (h : expectSome p l = some r) : r <:+ l := by
  cases l with
  | nil => simp [expectSome] at h
  | cons x xs =>
    simp only [expectSome] at h
    split at h
    · cases h
      exact (List.dropWhile_suffix p).trans (List.suffix_cons x xs)
    · cases h

theorem mem_of_mem_suffix {a : Char} {l₁ l₂ : List Char} (h : a ∈ l₁) (hs : l₁ <:+ l₂) :
    a ∈ l₂ :=
  List.Sublist.mem h hs.sublist

/-- A successful match of the `^def\s+\w+\s*\([^)]*\)\s*:` regex forces the
line to contain a colon. -/
theorem matchPyDef_mem_colon {l : List Char} (h : matchPyDef l = true) : ':' ∈ l := by
  unfold matchPyDef at h
  rw [Option.isSome_iff_exists] at h
  obtain ⟨r6, h⟩ := h
  rw [Option.bind_eq_some] at h
  obtain ⟨r5, hc5, h6⟩ := h
  rw [Option.bind_eq_some] at hc5
  obtain ⟨r4, hc4, h5⟩ := hc5
  rw [Option.bind_eq_some] at hc4
  obtain ⟨r3, hc3, h4⟩ := hc4
  rw [Option.bind_eq_some] at hc3
  obtain ⟨r2, hc2, h3⟩ := hc3
  rw [Option.bind_eq_some] at hc2
  obtain ⟨r1, h1, h2⟩ := hc2
  have hc : ':' ∈ r5.dropWhile isSpaceChar := (expectChar_suffix h6).2
  have s5 : r5 <:+ r4.dropWhile (fun c => !(c == ')')) := (expectChar_suffix h5).1
  have s4 : r4 <:+ r3.dropWhile isSpaceChar := (expectChar_suffix h4).1
  have hsuf : r5.dropWhile isSpaceChar <:+ l :=
    ((((((List.dropWhile_suffix isSpaceChar).trans s5).trans
      (List.dropWhile_suffix _)).trans s4).trans
      (List.dropWhile_suffix isSpaceChar)).trans
      (expectSome_suffix h3)).trans ((expectSome_suffix h2).trans (expectStr_suffix h1))
  exact mem_of_mem_suffix hc hsuf

theorem containsL_of_mem {c : Char} : ∀ {l : List Char}, c ∈ l → containsL [c] l = true := by
  intro l h
  induction l with
  | nil => cases h
  | cons x xs ih =>
    rcases List.mem_cons.mp h with h1 | h2
    · simp [containsL, startsWithL, h1]
    · simp [containsL, ih h2]

/-- The guard of the Python missing-type-hint rule is unsatisfiable: its
regex requires a `:` and its `!line.includes(':')` conjunct forbids one. -/
theorem pyMissingTypeHintHit_eq_false (l : List Char) : pyMissingTypeHintHit l = false := by
  unfold pyMissingTypeHintHit
  cases hd : matchPyDef l with
  | false => simp
  | true =>
    have hc : containsL [':'] l = true := containsL_of_mem (matchPyDef_mem_colon hd)
    simp [hd, hc]

/-- `hasNestedLoopGo` can only succeed if the scanned lines contain at
least two loop-open lines when `foundFor` starts false (one when it starts
true). -/
theorem hasNestedLoopGo_countP :
    ∀ (ls : List (List Char)) (fuel : Nat) (b : Int) (ff : Bool),
      hasNestedLoopGo ls fuel b ff = true →
      (if ff then 1 else 2) ≤ ls.countP forLineHit := by
  intro ls
  induction ls with
  | nil =>
    intro fuel b ff h
    cases fuel <;> simp [hasNestedLoopGo] at h
  | cons l rest ih =>
    intro fuel b ff h
    cases fuel with
    | zero => simp [hasNestedLoopGo] at h
    | succ f =>
      simp only [hasNestedLoopGo] at h
      rw [List.countP_cons]
      split at h
      · rename_i hcond
        simp only [Bool.and_eq_true, beq_iff_eq] at hcond
        rw [hcond.1.1, hcond.1.2]
        have e1 : (if true = true then 1 else 2) = 1 := rfl
        have e2 : (if true = true then (1 : Nat) else 0) = 1 := rfl
        rw [e1, e2]
        omega
      · have hrec := ih f _ _ h
        cases hhit : forLineHit l with
        | true =>
          rw [hhit, Bool.or_true] at hrec
          have e1 : (if true = true then 1 else 2) = 1 := rfl
          rw [e1] at hrec
          have e2 : (if true = true then (1 : Nat) else 0) = 1 := rfl
          rw [e2]
          cases ff with
          | true =>
            have e3 : (if true = true then 1 else 2) = 1 := rfl
            rw [e3]; omega
          | false =>
            have e4 : (if false = true then 1 else 2) = 2 := rfl
            rw [e4]; omega
        | false =>
          rw [hhit, Bool.or_false] at hrec
          have e2 : (if false = true then (1 : Nat) else 0) = 0 := rfl
          rw [e2, Nat.add_zero]
          exact hrec

/-- If `hasNestedLoop` fires anywhere, the document has at least two
loop-open lines. -/
theorem hasNestedLoop_two_for_lines {code : List Char} {i : Nat}
    (h : hasNestedLoop code i = true) : 2 ≤ (splitLines code).countP forLineHit := by
  unfold hasNestedLoop at h
  have h2 := hasNestedLoopGo_countP _ 20 0 false h
  have e : (if false = true then 1 else 2) = 2 := rfl
  rw [e] at h2
  calc 2 ≤ ((splitLines code).drop i).countP forLineHit := h2
    _ ≤ (splitLines code).countP forLineHit :=
        List.Sublist.countP_le forLineHit (List.drop_sublist i (splitLines code))

/-! ## Association-list lemmas -/

theorem lookupA_setA_self {κ β : Type} [DecidableEq κ] (l : List (κ × β)) (k : κ) (v : β) :
    lookupA (setA l k v) k = some v := by
  induction l with
  | nil => simp [setA, lookupA]
  | cons p ps ih =>
    by_cases h : p.1 = k
    · simp [setA, lookupA, h]
    · simp [setA, lookupA, h, ih]

theorem lookupA_setA_ne {κ β : Type} [DecidableEq κ] (l : List (κ × β)) {k k' : κ}
    (h : k' ≠ k) (v : β) : lookupA (setA l k v) k' = lookupA l k' := by
  induction l with
  | nil =>
    simp only [setA, lookupA]
    rw [if_neg (fun he => h he.symm)]
  | cons p ps ih =>
    by_cases hp : p.1 = k
    · simp only [setA, if_pos hp, lookupA]
      rw [if_neg (fun he => h he.symm), if_neg (fun he => (h (hp ▸ he).symm))]
    · simp only [setA, if_neg hp, lookupA, ih]

/-! ## LearningSystem lemmas -/

theorem patternCount_ulp (st : LearningState) (iv : InterventionData) (a : Action) :
    patternCount (updateLearningPatterns st iv a) (extractPattern iv) =
      patternCount st (extractPattern iv) + 1 := by
  unfold patternCount updateLearningPatterns
  dsimp only
  rw [lookupA_setA_self]
  cases h : lookupA st.learningPatterns (extractPattern iv) with
  | none => simp [h]
  | some p => simp [h]

theorem uar_learningPatterns (st : LearningState) (iv : InterventionData) (a : Action) :
    (updateAdaptationRules st iv a).learningPatterns = st.learningPatterns := by
  cases a <;> unfold updateAdaptationRules <;> dsimp only <;> (try split) <;> rfl

theorem uar_skip_mem (st : LearningState) (iv : InterventionData) (a : Action)
    {K : List Char} (h : K ∈ st.skipPatterns) :
    K ∈ (updateAdaptationRules st iv a).skipPatterns := by
  cases a <;> unfold updateAdaptationRules <;> dsimp only <;> (try split)
  · exact h
  · exact h
  · exact List.mem_append_left _ h
  · exact h
  · exact h

theorem uar_skip_dismissed (st : LearningState) (iv : InterventionData)
    (h3 : 3 ≤ patternCount st (extractPattern iv)) :
    extractPattern iv ∈ (updateAdaptationRules st iv .dismissed).skipPatterns := by
  unfold patternCount at h3
  unfold updateAdaptationRules
  dsimp only
  split
  · exact List.mem_append_right _ (List.mem_singleton.mpr rfl)
  · rename_i hc
    rw [Classical.not_and_iff_or_not_not] at hc
    rcases hc with hc | hc
    · exact absurd h3 hc
    · exact Classical.not_not.mp hc

theorem uar_preferred_accepted (st : LearningState) (iv : InterventionData) :
    extractPattern iv ∈ (updateAdaptationRules st iv .accepted).preferredPatterns := by
  unfold updateAdaptationRules
  dsimp only
  split
  · exact List.mem_append_right _ (List.mem_singleton.mpr rfl)
  · rename_i hc
    exact Classical.not_not.mp hc

theorem uar_preferred_mem (st : LearningState) (iv : InterventionData) (a : Action)
    {K : List Char} (h : K ∈ st.preferredPatterns) :
    K ∈ (updateAdaptationRules st iv a).preferredPatterns := by
  cases a <;> unfold updateAdaptationRules <;> dsimp only <;> (try split)
  · exact List.mem_append_left _ h
  · exact h
  · exact h
  · exact h
  · exact h

theorem setA_sensInv {sens : List (List Char × ℚ)}
    (hinv : ∀ K s, lookupA sens K = some s → 3/10 ≤ s ∧ s ≤ 1)
    {t : List Char} {v : ℚ} (hv : 3/10 ≤ v ∧ v ≤ 1) :
    ∀ K s, lookupA (setA sens t v) K = some s → 3/10 ≤ s ∧ s ≤ 1 := by
  intro K s hK
  by_cases hkt : K = t
  · subst hkt
    rw [lookupA_setA_self] at hK
    cases hK
    exact hv
  · rw [lookupA_setA_ne sens hkt v] at hK
    exact hinv K s hK

theorem v1_bounds (st : LearningState) (t : List Char) (hinv : sensInv st) :
    3/10 ≤ (if ((lookupA st.issueTypeSensitivity t).getD 0 : ℚ) = 0 then 1
        else (lookupA st.issueTypeSensitivity t).getD 0) ∧
      (if ((lookupA st.issueTypeSensitivity t).getD 0 : ℚ) = 0 then 1
        else (lookupA st.issueTypeSensitivity t).getD 0) ≤ 1 := by
  cases h : lookupA st.issueTypeSensitivity t with
  | none =>
    norm_num [Option.getD]
  | some s =>
    have hb := hinv t s h
    have hs0 : s ≠ 0 := by
      intro he
      rw [he] at hb
      norm_num at hb
    simpa [Option.getD, hs0] using hb

theorem uar_sensInv (st : LearningState) (iv : InterventionData) (a : Action)
    (hinv : sensInv st) : sensInv (updateAdaptationRules st iv a) := by
  have hv1 := v1_bounds st iv.issueType hinv
  cases a <;> unfold updateAdaptationRules <;> dsimp only <;> (try split) <;>
    intro K s hK
  · exact setA_sensInv hinv
      ⟨le_min (by norm_num) (by linarith [hv1.1]), min_le_left _ _⟩ K s hK
  · exact setA_sensInv hinv
      ⟨le_min (by norm_num) (by linarith [hv1.1]), min_le_left _ _⟩ K s hK
  · exact setA_sensInv hinv
      ⟨le_max_left _ _, max_le (by norm_num) (by linarith [hv1.2])⟩ K s hK
  · exact setA_sensInv hinv
      ⟨le_max_left _ _, max_le (by norm_num) (by linarith [hv1.2])⟩ K s hK
  · exact setA_sensInv hinv ⟨by norm_num, le_refl 1⟩ K s hK
  · rename_i hne
    rw [if_neg hne] at hv1
    exact setA_sensInv hinv hv1 K s hK

theorem patternCount_eq_of_patterns {st st' : LearningState}
    (h : st.learningPatterns = st'.learningPatterns) (K : List Char) :
    patternCount st K = patternCount st' K := by
  unfold patternCount
  rw [h]

theorem recordFeedback_skipPatterns (st : LearningState) (iv : InterventionData) (a : Action)
    (fb : Option (List Char)) :
    (recordFeedback st iv a fb).skipPatterns =
      (updateAdaptationRules (updateLearningPatterns
        { st with feedbackHistory := st.feedbackHistory ++ [mkUserFeedback iv a fb] }
        iv a) iv a).skipPatterns := by
  unfold recordFeedback
  dsimp only
  split <;> rfl

theorem recordFeedback_preferredPatterns (st : LearningState) (iv : InterventionData)
    (a : Action) (fb : Option (List Char)) :
    (recordFeedback st iv a fb).preferredPatterns =
      (updateAdaptationRules (updateLearningPatterns
        { st with feedbackHistory := st.feedbackHistory ++ [mkUserFeedback iv a fb] }
        iv a) iv a).preferredPatterns := by
  unfold recordFeedback
  dsimp only
  split <;> rfl

theorem recordFeedback_learningPatterns (st : LearningState) (iv : InterventionData)
    (a : Action) (fb : Option (List Char)) :
    (recordFeedback st iv a fb).learningPatterns =
      (updateAdaptationRules (updateLearningPatterns
        { st with feedbackHistory := st.feedbackHistory ++ [mkUserFeedback iv a fb] }
        iv a) iv a).learningPatterns := by
  unfold recordFeedback
  dsimp only
  split <;> rfl

theorem recordFeedback_issueTypeSensitivity (st : LearningState) (iv : InterventionData)
    (a : Action) (fb : Option (List Char)) :
    (recordFeedback st iv a fb).issueTypeSensitivity =
      (updateAdaptationRules (updateLearningPatterns
        { st with feedbackHistory := st.feedbackHistory ++ [mkUserFeedback iv a fb] }
        iv a) iv a).issueTypeSensitivity := by
  unfold recordFeedback
  dsimp only
  split <;> rfl

theorem ulp_skipPatterns (st : LearningState) (iv : InterventionData) (a : Action) :
    (updateLearningPatterns st iv a).skipPatterns = st.skipPatterns := rfl

theorem ulp_preferredPatterns (st : LearningState) (iv : InterventionData) (a : Action) :
    (updateLearningPatterns st iv a).preferredPatterns = st.preferredPatterns := rfl

theorem ulp_issueTypeSensitivity (st : LearningState) (iv : InterventionData) (a : Action) :
    (updateLearningPatterns st iv a).issueTypeSensitivity = st.issueTypeSensitivity := rfl

theorem recordFeedback_patternCount (st : LearningState) (iv : InterventionData) (a : Action)
    (fb : Option (List Char)) :
    patternCount (recordFeedback st iv a fb) (extractPattern iv) =
      patternCount st (extractPattern iv) + 1 := by
  rw [patternCount_eq_of_patterns (recordFeedback_learningPatterns st iv a fb),
    patternCount_eq_of_patterns (uar_learningPatterns _ iv a), patternCount_ulp]
  rfl

theorem recordFeedback_skip_mem (st : LearningState) (iv : InterventionData) (a : Action)
    (fb : Option (List Char)) {K : List Char} (h : K ∈ st.skipPatterns) :
    K ∈ (recordFeedback st iv a fb).skipPatterns := by
  rw [recordFeedback_skipPatterns]
  refine uar_skip_mem _ iv a ?_
  rw [ulp_skipPatterns]
  exact h

theorem recordFeedback_dismissed_skip (st : LearningState) (iv : InterventionData)
    (fb : Option (List Char)) (h2 : 2 ≤ patternCount st (extractPattern iv)) :
    extractPattern iv ∈ (recordFeedback st iv .dismissed fb).skipPatterns := by
  rw [recordFeedback_skipPatterns]
  refine uar_skip_dismissed _ iv ?_
  rw [patternCount_ulp]
  have he : patternCount
      { st with feedbackHistory := st.feedbackHistory ++ [mkUserFeedback iv .dismissed fb] }
      (extractPattern iv) = patternCount st (extractPattern iv) := rfl
  rw [he]
  omega

theorem recordFeedback_preferred (st : LearningState) (iv : InterventionData)
    (fb : Option (List Char)) :
    extractPattern iv ∈ (recordFeedback st iv .accepted fb).preferredPatterns := by
  rw [recordFeedback_preferredPatterns]
  exact uar_preferred_accepted _ iv

theorem recordFeedback_sensInv (st : LearningState) (iv : InterventionData) (a : Action)
    (fb : Option (List Char)) (hinv : sensInv st) : sensInv (recordFeedback st iv a fb) := by
  intro K s hK
  rw [recordFeedback_issueTypeSensitivity] at hK
  refine uar_sensInv _ iv a ?_ K s hK
  intro K2 s2 hK2
  rw [ulp_issueTypeSensitivity] at hK2
  exact hinv K2 s2 hK2

theorem runFeedback_skip_mem :
    ∀ (events : List FeedbackEvent) (st : LearningState) {K : List Char},
      K ∈ st.skipPatterns → K ∈ (runFeedback st events).skipPatterns
  | [], _, _, h => h
  | e :: es, st, _, h =>
    runFeedback_skip_mem es _ (recordFeedback_skip_mem st e.iv e.action e.feedback h)

theorem runFeedback_sensInv :
    ∀ (events : List FeedbackEvent) (st : LearningState), sensInv st →
      sensInv (runFeedback st events)
  | [], _, h => h
  | e :: es, st, h =>
    runFeedback_sensInv es _ (recordFeedback_sensInv st e.iv e.action e.feedback h)

theorem shouldShowIssue_of_skip (st : LearningState) (issue : CodeIssue)
    (h : issuePatternKey issue ∈ st.skipPatterns) : shouldShowIssue st issue = false := by
  unfold shouldShowIssue
  dsimp only
  rw [if_pos h]

theorem initLearningState_sensInv : sensInv initLearningState := by
  intro K s h
  simp [initLearningState, lookupA] at h

theorem length_eq_actions_partition (l : List UserFeedback) :
    l.length = (l.filter (fun f => f.action = .accepted)).length +
      (l.filter (fun f => f.action = .dismissed)).length +
      (l.filter (fun f => f.action = .modified)).length := by
  induction l with
  | nil => rfl
  | cons f fs ih =>
    cases hf : f.action <;> simp [List.filter_cons, hf, List.length_cons] <;> omega

/-! ## Claim theorems -/

/-- Claim C1: for every pattern key `K`, after three consecutive feedback
events with action `dismissed` on interventions whose derived pattern key
is `K`, `K` is a member of `skipPatterns`, and thereafter — after any
further feedback events — `shouldShowIssue` returns `false` for every
issue whose pattern key is `K`, including issues of severity `critical`
(the universally quantified `issue` in particular covers critical ones). -/
theorem C1_three_dismissals_suppress (st : LearningState)
    (iv1 iv2 iv3 : InterventionData) (K : List Char)
    (h1 : extractPattern iv1 = K) (h2 : extractPattern iv2 = K)
    (h3 : extractPattern iv3 = K) (fb1 fb2 fb3 : Option (List Char))
    (rest : List FeedbackEvent) (issue : CodeIssue) (hkey : issuePatternKey issue = K) :
    K ∈ (runFeedback (recordFeedback (recordFeedback (recordFeedback st iv1 .dismissed fb1)
        iv2 .dismissed fb2) iv3 .dismissed fb3) rest).skipPatterns ∧
      shouldShowIssue (runFeedback (recordFeedback (recordFeedback (recordFeedback st iv1
        .dismissed fb1) iv2 .dismissed fb2) iv3 .dismissed fb3) rest) issue = false := by
  have c1 := recordFeedback_patternCount st iv1 .dismissed fb1
  rw [h1] at c1
  have c2 := recordFeedback_patternCount (recordFeedback st iv1 .dismissed fb1) iv2
    .dismissed fb2
  rw [h2] at c2
  have hmem : extractPattern iv3 ∈ (recordFeedback (recordFeedback (recordFeedback st iv1
      .dismissed fb1) iv2 .dismissed fb2) iv3 .dismissed fb3).skipPatterns := by
    refine recordFeedback_dismissed_skip _ iv3 fb3 ?_
    rw [h3, c2, c1]
    omega
  rw [h3] at hmem
  have hmem2 := runFeedback_skip_mem rest _ hmem
  exact ⟨hmem2, shouldShowIssue_of_skip _ issue (by rw [hkey]; exact hmem2)⟩

/-- Instantiation of `C1_three_dismissals_suppress` at a concrete state,
intervention and critical issue. -/
theorem C1_three_dismissals_suppress_witness :
    ("bug".toList ++ ':' :: "x".toList) ∈ (runFeedback (recordFeedback (recordFeedback
        (recordFeedback initLearningState ⟨"i".toList, "bug".toList, "x".toList, "m".toList⟩
          .dismissed none) ⟨"i".toList, "bug".toList, "x".toList, "m".toList⟩ .dismissed none)
        ⟨"i".toList, "bug".toList, "x".toList, "m".toList⟩ .dismissed none) []).skipPatterns ∧
      shouldShowIssue (runFeedback (recordFeedback (recordFeedback (recordFeedback
        initLearningState ⟨"i".toList, "bug".toList, "x".toList, "m".toList⟩ .dismissed none)
        ⟨"i".toList, "bug".toList, "x".toList, "m".toList⟩ .dismissed none)
        ⟨"i".toList, "bug".toList, "x".toList, "m".toList⟩ .dismissed none) [])
        ⟨.bug, .critical, 1, [], "x".toList, none, "f".toList⟩ = false :=
  C1_three_dismissals_suppress initLearningState
    ⟨"i".toList, "bug".toList, "x".toList, "m".toList⟩
    ⟨"i".toList, "bug".toList, "x".toList, "m".toList⟩
    ⟨"i".toList, "bug".toList, "x".toList, "m".toList⟩
    ("bug".toList ++ ':' :: "x".toList) (by decide) (by decide) (by decide) none none none []
    ⟨.bug, .critical, 1, [], "x".toList, none, "f".toList⟩ (by decide)

/-- Claim C2 (code bug): `acceptIntervention`/`dismissIntervention` locate
the intervention by id but have no already-resolved guard, so accepting and
then dismissing the same id sets BOTH flags and forwards TWO records to the
learning system, contradicting the claimed mutual exclusion / no-op. -/
theorem C2_accept_then_dismiss_sets_both_flags :
    dismissIntervention (acceptIntervention
        { interventions := [{ id := "a".toList, dismissed := false, accepted := false }],
          feedbackLog := [] } "a".toList) "a".toList =
      { interventions := [{ id := "a".toList, dismissed := true, accepted := true }],
        feedbackLog := [("a".toList, Action.accepted), ("a".toList, Action.dismissed)] } := by
  decide

/-- Claim C3 counterexample: the rate limiter is keyed on the single
`lastSuggestionTime` field, not per document.  An analysis of document A
at t=100000 makes an analysis of a different document B at t=110000 return
`[]`, even though B analysed alone at t=110000 yields issues — refuting
the claimed per-document scope. -/
theorem C3_cex_cooldown_blocks_other_document :
    (analyzeDocument true ⟨0⟩ 100000
        ⟨"TODO a".toList, "plaintext".toList, "a.txt".toList, "file".toList⟩).1 ≠ [] ∧
      (analyzeDocument true (analyzeDocument true ⟨0⟩ 100000
          ⟨"TODO a".toList, "plaintext".toList, "a.txt".toList, "file".toList⟩).2 110000
        ⟨"FIXME b".toList, "plaintext".toList, "b.txt".toList, "file".toList⟩).1 = [] ∧
      (analyzeDocument true ⟨0⟩ 110000
        ⟨"FIXME b".toList, "plaintext".toList, "b.txt".toList, "file".toList⟩).1 ≠ [] := by
  decide

/-- Claim C3 amended: the detection cooldown is global across documents:
every `analyzeDocument` call less than 20 seconds after the last
non-blocked analysis — of any document — yields an empty result and leaves
the analyzer state (the cooldown window) unchanged. -/
theorem C3_amended_cooldown_global (proactive : Bool) (st : AnalyzerState) (now : Int)
    (doc : TextDocument) (h : now - st.lastSuggestionTime < 20000) :
    analyzeDocument proactive st now doc = ([], st) := by
  unfold analyzeDocument
  rw [if_pos h]
  split <;> rfl

/-- Instantiation of `C3_amended_cooldown_global` at a concrete blocked
call for a different document. -/
theorem C3_amended_cooldown_global_witness :
    analyzeDocument true ⟨100000⟩ 110000
        ⟨"FIXME b".toList, "plaintext".toList, "b.txt".toList, "file".toList⟩ =
      ([], ⟨100000⟩) :=
  C3_amended_cooldown_global true ⟨100000⟩ 110000
    ⟨"FIXME b".toList, "plaintext".toList, "b.txt".toList, "file".toList⟩ (by decide)

/-- Claim C4 (code bug): three changes to one document at t=100000,
100600, 101200 (each gap 600 ms < 1 s) schedule TWO analyses, at t=101000
and t=102200 — the handler drops events within 1 s of the last *tracked*
change and never cancels or reschedules a pending timer, so there is no
trailing debounce firing once at 1 s after the last change. -/
theorem C4_change_burst_schedules_two_timers :
    (runChanges true false true "file:///a.ts".toList ⟨[], []⟩
        [100000, 100600, 101200]).scheduled =
      [("file:///a.ts".toList, 101000), ("file:///a.ts".toList, 102200)] := by
  decide

/-- Claim C5 counterexample: for a document whose only issue is
style/info (`console.log`), `requestReview` produces one intervention even
though the `minimal` frequency policy would keep none — so the frequency
policy is NOT applied to the on-demand review result. -/
theorem C5_cex_review_ignores_frequency :
    (requestReviewContexts (analyzeDocument true ⟨0⟩ 100000
        ⟨"console.log(1)".toList, "javascript".toList, "a.js".toList, "file".toList⟩).1).length
        = 1 ∧
      ((analyzeDocument true ⟨0⟩ 100000
          ⟨"console.log(1)".toList, "javascript".toList, "a.js".toList, "file".toList⟩).1.filter
        (freqKeep "minimal".toList)).map convertToSuggestionContext = [] ∧
      requestReviewContexts (analyzeDocument true ⟨0⟩ 100000
          ⟨"console.log(1)".toList, "javascript".toList, "a.js".toList, "file".toList⟩).1 ≠
        ((analyzeDocument true ⟨0⟩ 100000
            ⟨"console.log(1)".toList, "javascript".toList, "a.js".toList, "file".toList⟩).1.filter
          (freqKeep "minimal".toList)).map convertToSuggestionContext := by
  decide

/-- Claim C5 amended: `requestReview` bypasses the suppressed-pattern and
sensitivity checks AND the frequency policy and the suggestion cap: every
issue returned by the analyzer becomes an intervention, even one that
`shouldShowIssue` rejects — while the proactive `analyzeDocument` pipeline
(which does apply those filters) omits that issue. -/
theorem C5_amended_review_bypasses_filters (st : LearningState) (frequency : List Char)
    (maxSuggestions : Nat) (issues : List CodeIssue) (issue : CodeIssue)
    (hmem : issue ∈ issues) (hshow : shouldShowIssue st issue = false) :
    convertToSuggestionContext issue ∈ requestReviewContexts issues ∧
      issue ∉ analyzeDocumentFilter st frequency maxSuggestions issues := by
  refine ⟨List.mem_map_of_mem _ hmem, ?_⟩
  intro hmem2
  unfold analyzeDocumentFilter at hmem2
  split at hmem2
  · exact absurd hmem2 (List.not_mem_nil issue)
  · have hf1 := List.take_subset maxSuggestions _ hmem2
    have hf2 := (List.mem_filter.mp hf1).1
    have hf3 := (List.mem_filter.mp hf2).2
    rw [hshow] at hf3
    simp at hf3

/-- Instantiation of `C5_amended_review_bypasses_filters`: a style/info
issue whose pattern key is suppressed still appears in the review output
and is dropped by the proactive pipeline. -/
theorem C5_amended_review_bypasses_filters_witness :
    convertToSuggestionContext
        ⟨.style, .info, 1, [], "console.log(1)".toList, none, "a.js".toList⟩ ∈
      requestReviewContexts
        [⟨.style, .info, 1, [], "console.log(1)".toList, none, "a.js".toList⟩] ∧
      (⟨.style, .info, 1, [], "console.log(1)".toList, none, "a.js".toList⟩ : CodeIssue) ∉
        analyzeDocumentFilter ⟨[], [], ["style:console.log(1)".toList], [], [], []⟩
          "minimal".toList 3
          [⟨.style, .info, 1, [], "console.log(1)".toList, none, "a.js".toList⟩] :=
  C5_amended_review_bypasses_filters ⟨[], [], ["style:console.log(1)".toList], [], [], []⟩
    "minimal".toList 3 [⟨.style, .info, 1, [], "console.log(1)".toList, none, "a.js".toList⟩]
    ⟨.style, .info, 1, [], "console.log(1)".toList, none, "a.js".toList⟩
    (by decide) (by decide)

/-- Claim C6 (code bug): the Python missing-return-type rule never fires:
its regex `^def\s+\w+\s*\([^)]*\)\s*:` requires a colon while the
`!line.includes(':')` conjunct forbids one, so the guard is identically
false and `def foo(x):` yields no issue at all — contradicting the claimed
style/info finding. -/
theorem C6_missing_return_type_rule_dead :
    analyzePython "def foo(x):".toList "f.py".toList = [] ∧
      ∀ line : List Char, pyMissingTypeHintHit line = false :=
  ⟨by decide, pyMissingTypeHintHit_eq_false⟩

/-- Claim C7: on `"for (a) {\n for (b) {\n}\n}"` the analyzer flags exactly
the outer `for` line as performance/warning, and a document with at most
one loop-open line is never flagged by the nested-loop rule
(`hasNestedLoop` is false at every start line). -/
theorem C7_nested_loop_detection :
    analyzeJavaScript "for (a) \x7b\n for (b) \x7b\n\x7d\n\x7d".toList "a.js".toList =
      [{ type := .performance, severity := .warning, line := 1,
         message := "Nested loop detected - potential O(n²) complexity".toList,
         code := "for (a) \x7b".toList,
         suggestion := some "Consider using a Map or Set for O(1) lookups instead of nested loops".toList,
         filePath := "a.js".toList }] ∧
      ∀ (code : List Char) (i : Nat),
        (splitLines code).countP forLineHit ≤ 1 → hasNestedLoop code i = false := by
  constructor
  · decide
  · intro code i hle
    cases hn : hasNestedLoop code i with
    | false => rfl
    | true => exact absurd (hasNestedLoop_two_for_lines hn) (by omega)

/-- Instantiation of `C7_nested_loop_detection` on a single non-nested
`for` line. -/
theorem C7_nested_loop_detection_witness :
    hasNestedLoop "for (a) \x7b x \x7d".toList 0 = false :=
  C7_nested_loop_detection.2 "for (a) \x7b x \x7d".toList 0 (by decide)

/-- Claim C8: for every issue kind and every sequence of `recordFeedback`
calls from the initial state, every stored `issueTypeSensitivity` value
stays within `[0.3, 1.0]` (first encounter initialises to 1.0, dismissals
subtract 0.1 clamped at the 0.3 floor, acceptances add 0.05 clamped at the
1.0 ceiling). -/
theorem C8_sensitivity_within_bounds (events : List FeedbackEvent) (K : List Char) (s : ℚ)
    (h : lookupA (runFeedback initLearningState events).issueTypeSensitivity K = some s) :
    3/10 ≤ s ∧ s ≤ 1 :=
  runFeedback_sensInv events initLearningState initLearningState_sensInv K s h

/-- Instantiation of `C8_sensitivity_within_bounds` after one dismissal
(the stored value is 0.9). -/
theorem C8_sensitivity_within_bounds_witness :
    3/10 ≤ (9/10 : ℚ) ∧ (9/10 : ℚ) ≤ 1 :=
  C8_sensitivity_within_bounds
    [⟨⟨"i".toList, "bug".toList, "x".toList, "m".toList⟩, .dismissed, none⟩]
    "bug".toList (9/10)
    (by
      show lookupA (recordFeedback initLearningState
          ⟨"i".toList, "bug".toList, "x".toList, "m".toList⟩ .dismissed none).issueTypeSensitivity
          "bug".toList = some (9/10)
      rw [recordFeedback_issueTypeSensitivity]
      unfold updateAdaptationRules
      dsimp only
      simp [updateLearningPatterns, initLearningState, extractPattern, lookupA, setA,
        mkUserFeedback]
      rw [max_eq_right (by norm_num)]
      norm_num)

/-- Claim C9: once a pattern key is in `skipPatterns`, no `recordFeedback`
call removes it; accepting an intervention with that key adds the key to
`preferredPatterns` while leaving it in `skipPatterns`, so
`shouldShowIssue` keeps returning false for that key; and
`resetLearningData` produces an empty `skipPatterns`. -/
theorem C9_skip_patterns_never_removed (st : LearningState) (K : List Char)
    (hK : K ∈ st.skipPatterns) :
    (∀ events : List FeedbackEvent, K ∈ (runFeedback st events).skipPatterns) ∧
      (∀ (iv : InterventionData) (fb : Option (List Char)), extractPattern iv = K →
        K ∈ (recordFeedback st iv .accepted fb).preferredPatterns ∧
          K ∈ (recordFeedback st iv .accepted fb).skipPatterns ∧
          ∀ issue : CodeIssue, issuePatternKey issue = K →
            shouldShowIssue (recordFeedback st iv .accepted fb) issue = false) ∧
      ∀ st' : LearningState, (resetLearningData st').skipPatterns = [] := by
  refine ⟨fun events => runFeedback_skip_mem events st hK, fun iv fb hiv => ?_, fun _ => rfl⟩
  have hskip := recordFeedback_skip_mem st iv .accepted fb hK
  exact ⟨hiv ▸ recordFeedback_preferred st iv fb, hskip,
    fun issue hkey => shouldShowIssue_of_skip _ issue (by rw [hkey]; exact hskip)⟩

/-- Instantiation of `C9_skip_patterns_never_removed`: a suppressed key
survives an accepted feedback event. -/
theorem C9_skip_patterns_never_removed_witness :
    "bug:x".toList ∈ (runFeedback ⟨[], [], ["bug:x".toList], [], [], []⟩
        [⟨⟨"i".toList, "bug".toList, "x".toList, "m".toList⟩, .accepted, none⟩]).skipPatterns :=
  (C9_skip_patterns_never_removed ⟨[], [], ["bug:x".toList], [], [], []⟩ "bug:x".toList
    (by decide)).1 [⟨⟨"i".toList, "bug".toList, "x".toList, "m".toList⟩, .accepted, none⟩]

/-- Claim C10: after any sequence of `recordFeedback` calls,
`getLearningStats` satisfies `totalFeedback = accepted + dismissed +
modified`, because every stored record's action is exactly one of the
three enumeration values. -/
theorem C10_stats_total_partition (events : List FeedbackEvent) :
    (getLearningStats (runFeedback initLearningState events)).totalFeedback =
      (getLearningStats (runFeedback initLearningState events)).accepted +
        (getLearningStats (runFeedback initLearningState events)).dismissed +
        (getLearningStats (runFeedback initLearningState events)).modified :=
  length_eq_actions_partition _

end DMentor
